import Mathlib

/-!
Verification of the routing rule compiler and the node health cache of the
`sing` proxy manager.

The Lean definitions below are a shallow embedding of the Python source:
* `src/config/routing_config.py` — `load_routing_config` and
  `generate_route_config` (the rule compiler);
* `src/node_tester.py` — `test_node_speed_and_country` and
  `_get_server_country` (the probe engine);
* `src/nodes.py` / `src/node_display.py` — `_is_cache_expired` and the
  cache-updating loop bodies of `_start_dynamic_refresh` and
  `_async_update_nodes_with_display` (the health cache).

Python dicts are modelled as insertion-ordered association lists, missing
dict keys as `Option` fields, wall-clock times as rationals, and the
outcomes of network sub-calls as explicit environment values.
-/

namespace Sing

/-! ## Data model of the routing configuration

A rule is a Python dict mixing matcher keys (`domain`, `domain_suffix`,
`domain_keyword`, `ip_cidr`, `port`, …) with the `outbound` key.  Matcher
values are lists of strings or (for `port`) lists of integers. -/

/-- The value of one matcher key of a rule: a list of strings
(domains, CIDRs, …) or a list of integers (ports). -/
inductive MVal where
  | strs (l : List String)
  | ints (l : List Int)
deriving DecidableEq, Repr

/-- One routing rule: its matcher entries (every key other than
`outbound`, in dict insertion order) and the optional `outbound` key. -/
structure Rule where
  matchers : List (String × MVal)
  outbound : Option String
deriving DecidableEq, Repr

/-- One rule set record.  `Option` fields model keys that may be absent
from the JSON dict; the compiler reads them with the same defaults the
Python code passes to `dict.get`. -/
structure RuleSet where
  name : Option String
  enabled : Option Bool
  priority : Option Int
  rules : List Rule
deriving DecidableEq, Repr

/-- The loaded routing section: `enabled_rules`, `final_outbound` and the
insertion-ordered `rule_sets` mapping. -/
structure RoutingConfig where
  enabled_rules : List String
  final_outbound : Option String
  rule_sets : List (String × RuleSet)
deriving DecidableEq, Repr

/-- One compiled rule of the artifact: the copied matcher entries plus the
always-present `outbound` string. -/
structure RouteRule where
  matchers : List (String × MVal)
  outbound : String
deriving DecidableEq, Repr

/-- The compiler's result.  `generate_route_config` returns the empty dict
`\x7b\x7d` when no rule set is enabled, and otherwise a dict with the keys
`auto_detect_interface`, `final` and `rules`; the two shapes are distinct
constructors. -/
inductive RouteConfig where
  | empty
  | mk (auto_detect_interface : Bool) (final : String) (rules : List RouteRule)
deriving DecidableEq, Repr

/-! ## The compiler (`generate_route_config`, routing_config.py:442-484) -/

/-- The loop body at routing_config.py:466-476: copy every key except
`outbound`, then set `outbound` to `rule.get("outbound", "proxy")`. -/
def compileRule (r : Rule) : RouteRule :=
  { matchers := r.matchers, outbound := r.outbound.getD ("proxy") }

/-- The list built at routing_config.py:455-460: walk `enabled_rules` and
keep `(priority, rule_name, rule_set)` for each name that is a key of
`rule_sets` whose `enabled` flag (default `True`) is set. -/
def filteredSets (cfg : RoutingConfig) : List (Int × String × RuleSet) :=
  cfg.enabled_rules.filterMap fun rule_name =>
    match cfg.rule_sets.lookup rule_name with
    | some rs => if rs.enabled.getD true then some (rs.priority.getD 100, rule_name, rs) else none
    | none => none

/-- The comparison used by `sorted_rules.sort(key=lambda x: x[0])`. -/
def rsLE (a b : Int × String × RuleSet) : Prop := a.1 ≤ b.1

instance : DecidableRel rsLE := fun a b => inferInstanceAs (Decidable (a.1 ≤ b.1))

instance : IsTotal (Int × String × RuleSet) rsLE := ⟨fun a b => Int.le_total a.1 b.1⟩

instance : IsTrans (Int × String × RuleSet) rsLE := ⟨fun _ _ _ h h' => le_trans h h'⟩

instance : IsRefl (Int × String × RuleSet) rsLE := ⟨fun a => le_refl a.1⟩

/-- routing_config.py:462 — `sorted_rules.sort(key=lambda x: x[0])`.
Python's sort is stable; `insertionSort` by `rsLE` is the same stable
sort by priority. -/
def sortedSets (cfg : RoutingConfig) : List (Int × String × RuleSet) :=
  (filteredSets cfg).insertionSort rsLE

/-- The rules one sorted entry appends to the output, in original
within-set order. -/
def ruleBlock (x : Int × String × RuleSet) : List RouteRule :=
  x.2.2.rules.map compileRule

/-- The flattened `route_rules` list built at routing_config.py:465-476. -/
def generatedRules (cfg : RoutingConfig) : List RouteRule :=
  (sortedSets cfg).flatMap ruleBlock

/-- `generate_route_config` (routing_config.py:442-484), as a function of
the loaded routing config: return `\x7b\x7d` if `enabled_rules` is falsy,
otherwise the artifact with `auto_detect_interface`, `final` (defaulted to
"proxy") and the flattened rules. -/
def generate_route_config (cfg : RoutingConfig) : RouteConfig :=
  if cfg.enabled_rules = [] then .empty
  else .mk true (cfg.final_outbound.getD ("proxy")) (generatedRules cfg)

/-- `cfg` with `enabled_rules` restricted to ids that are keys of
`rule_sets`.  Used to state that unknown ids are silently skipped. -/
def knownOnly (cfg : RoutingConfig) : RoutingConfig :=
  { cfg with enabled_rules := cfg.enabled_rules.filter fun id => (cfg.rule_sets.lookup id).isSome }

/-! ## Probe engine (`node_tester.py`)

The probe touches the network (a ping subprocess and an HTTP geolocation
request).  Each sub-call's outcome is an explicit environment value; the
Lean functions are the Python control flow around those outcomes. -/

/-- A latency value as the Python code stores it: an integer number of
milliseconds or a sentinel string ("timeout", "待测试", "N/A"). -/
inductive LatencyVal where
  | num (n : Int)
  | strv (s : String)
deriving DecidableEq, Repr

/-- Outcome of `self._ping_test(server, timeout=5)`: an integer latency,
`None` (ping failed or timed out), or a raised exception. -/
inductive PingOutcome where
  | ok (ms : Int)
  | failed
  | exn
deriving DecidableEq, Repr

/-- Outcome of the `requests.get` call to ip-api.com together with the
parsed body fields, or a raised exception (connection error, bad JSON). -/
inductive GeoOutcome where
  | resp (status_code : Int) (status : Option String) (country : Option String)
  | exn
deriving DecidableEq, Repr

/-- The environment of one probe: what the two network sub-calls do. -/
structure ProbeEnv where
  ping : PingOutcome
  geo : GeoOutcome
deriving DecidableEq, Repr

/-- The `config` sub-dict of a node as the probe reads it
(node_tester.py:155-157). -/
structure NodeConfig where
  server : Option String
  address : Option String
  port : Option Int
  listen_port : Option Int
deriving DecidableEq, Repr

/-- The static TLD → country table of `_get_server_country`
(node_tester.py:333-338). -/
def tld_map : List (String × String) :=
  [("cn", "中国"), ("jp", "日本"), ("kr", "韩国"), ("sg", "新加坡"),
   ("hk", "香港"), ("tw", "台湾"), ("us", "美国"), ("uk", "英国"),
   ("de", "德国"), ("fr", "法国"), ("ca", "加拿大"), ("au", "澳大利亚"),
   ("nl", "荷兰"), ("ru", "俄罗斯"), ("br", "巴西"), ("in", "印度")]

/-- The fallback block of `_get_server_country` (node_tester.py:331-343):
if the server name contains a dot, look its lowercased last component up
in `tld_map`; otherwise, or on a miss, return the unknown sentinel. -/
def tldFallback (server : String) : String :=
  if server.contains '.' then
    match tld_map.lookup (((server.splitOn (".")).getLastD ("")).toLower) with
    | some c => c
    | none => "未知"
  else "未知"

/-- The loopback / private-address test of `_get_server_country`
(node_tester.py:316). -/
def isLocalServer (server : String) : Bool :=
  server = "localhost" || server = "127.0.0.1" || server = "::1" ||
    server.startsWith ("192.168.") || server.startsWith ("10.")

/-- `_get_server_country` (node_tester.py:308-347).  The inner `try`
around the HTTP call absorbs any exception (`GeoOutcome.exn`) and falls
through to the TLD table; the API result is used only if the status code
is 200, the body status is "success" and the country is non-blank. -/
def _get_server_country (env : ProbeEnv) (server : String) : String :=
  if server = "" then "本地"
  else if isLocalServer server then "本地"
  else
    match env.geo with
    | .resp status_code status country =>
        if status_code = 200 ∧ status = some ("success") ∧
            (country.getD ("")) ≠ "" ∧ ((country.getD ("")).trim) ≠ ""
        then (country.getD ("")).trim
        else tldFallback server
    | .exn => tldFallback server

/-- `test_node_speed_and_country` (node_tester.py:154-174).  Missing or
falsy server/port short-circuits to the ("本地", "N/A") sentinel pair;
otherwise the latency is the ping outcome ("timeout" for `None`, "待测试"
for a raised exception, both caught) and the country is the independent
geolocation lookup. -/
def test_node_speed_and_country (env : ProbeEnv) (node : NodeConfig) : String × LatencyVal :=
  let server := (node.server <|> node.address).getD ("")
  let port := (node.port <|> node.listen_port).getD 0
  if server = "" ∨ port = 0 then ("本地", .strv ("N/A"))
  else
    let latency : LatencyVal :=
      match env.ping with
      | .ok n => .num n
      | .failed => .strv ("timeout")
      | .exn => .strv ("待测试")
    (_get_server_country env server, latency)

/-! ## Health cache (`nodes.py`, `node_display.py`) -/

/-- One cache entry dict; all three keys may be absent. -/
structure CacheEntry where
  country : Option String
  latency : Option LatencyVal
  timestamp : Option ℚ
deriving DecidableEq, Repr

/-- `_is_cache_expired(timestamp, expiry_hours=6)` (nodes.py:552-556 and
node_display.py:171-175, identical).  A missing (`None`) or zero
timestamp is falsy and counts as expired; otherwise the entry is expired
iff `now - timestamp > expiry_hours * 3600`. -/
def _is_cache_expired (timestamp : Option ℚ) (expiry_hours : Int) (now : ℚ) : Bool :=
  match timestamp with
  | none => true
  | some t => if t = 0 then true else decide (now - t > (expiry_hours : ℚ) * 3600)

/-- Python truthiness of a latency value: the integer 0 and the empty
string are falsy. -/
def latTruthy : LatencyVal → Bool
  | .num n => n ≠ 0
  | .strv s => s ≠ ""

/-- The cache write of the sequential refresh loop
(`_start_dynamic_refresh`, nodes.py:184-210): the timestamp is always
reset to the completion time; latency and country are taken from the
probe when valid and otherwise kept from the existing entry (with the
"待测试" / "未知" defaults). -/
def update_cache_entry (existing : CacheEntry) (country : String) (latency : LatencyVal)
    (now : ℚ) : CacheEntry :=
  { timestamp := some now,
    latency := some (if latTruthy latency ∧ latency ≠ .strv ("待测试")
      then latency else existing.latency.getD (.strv ("待测试"))),
    country := some (if country ≠ "" ∧ country ≠ "未知"
      then country else existing.country.getD ("未知")) }

/-- The cache write of the concurrent refresh
(`_async_update_nodes_with_display`, nodes.py:354-366): a fresh entry
with the probe's country and latency and the completion time. -/
def async_cache_entry (country : String) (latency : LatencyVal) (now : ℚ) : CacheEntry :=
  { country := some country, latency := some latency, timestamp := some now }

/-- `cache_data.get(cache_key, \x7b\x7d)`: the entry for a key, defaulting
to the empty dict. -/
def getEntry (cache : List (String × CacheEntry)) (key : String) : CacheEntry :=
  (cache.lookup key).getD ⟨none, none, none⟩

/-- `cache_data[cache_key] = entry`: replace in place, or append a new
key (Python dicts keep insertion order). -/
def setEntry : List (String × CacheEntry) → String → CacheEntry → List (String × CacheEntry)
  | [], k, e => [(k, e)]
  | (k', e') :: rest, k, e =>
      if k' = k then (k, e) :: rest else (k', e') :: setEntry rest k e

/-- The cache effect of one sequential refresh pass: each processed node
contributes an event `(cache key, probed country, probed latency,
completion time)`, applied in order via `update_cache_entry`. -/
def refresh_pass : List (String × String × LatencyVal × ℚ) →
    List (String × CacheEntry) → List (String × CacheEntry)
  | [], cache => cache
  | (key, country, lat, t) :: rest, cache =>
      refresh_pass rest (setEntry cache key (update_cache_entry (getEntry cache key) country lat t))

/-! ## Loading the routing section (`load_routing_config`,
routing_config.py:23-62) -/

/-- A parsed JSON value (what `json.load` can produce). -/
inductive Json where
  | obj (fields : List (String × Json))
  | arr (items : List Json)
  | str (s : String)
  | num (n : ℚ)
  | bool (b : Bool)
  | null

/-- The exceptions the surrounding Python can raise past the
`except (FileNotFoundError, json.JSONDecodeError)` clause. -/
inductive PyErr where
  | osError
  | attributeError
  | typeError
deriving DecidableEq, Repr

/-- The `enabled_rules` value of the built-in default config. -/
def defaultEnabledRules : Json :=
  .arr [.str ("china_direct"), .str ("private_direct")]

/-- The `rule_sets` value of the built-in default config
(routing_config.py:28-46). -/
def defaultRuleSets : Json :=
  .obj [
    ("china_direct", .obj [
      ("name", .str ("中国直连")),
      ("enabled", .bool true),
      ("priority", .num 100),
      ("rules", .arr [
        .obj [("domain_suffix", .arr [.str (".cn"), .str (".中国")]),
              ("outbound", .str ("direct"))],
        .obj [("ip_cidr", .arr [.str ("223.5.5.5/32"), .str ("114.114.114.114/32")]),
              ("outbound", .str ("direct"))]])]),
    ("private_direct", .obj [
      ("name", .str ("私有网络直连")),
      ("enabled", .bool true),
      ("priority", .num 200),
      ("rules", .arr [
        .obj [("ip_cidr", .arr [.str ("127.0.0.1/32"), .str ("10.0.0.0/8"),
                                .str ("172.16.0.0/12"), .str ("192.168.0.0/16")]),
              ("outbound", .str ("direct"))]])])]

/-- The `default_config` dict of `load_routing_config`
(routing_config.py:25-47), in insertion order. -/
def default_routing_fields : List (String × Json) :=
  [("enabled_rules", defaultEnabledRules),
   ("final_outbound", .str ("proxy")),
   ("rule_sets", defaultRuleSets)]

/-- The merge loop at routing_config.py:57-59, unrolled over the three
default keys: `for key, value in default_config.items(): if key not in
routing: routing[key] = value` (a new dict key is appended at the end). -/
def fillDefaults (routing : List (String × Json)) : List (String × Json) :=
  let r1 := if (routing.lookup ("enabled_rules")).isSome then routing
    else routing ++ [("enabled_rules", defaultEnabledRules)]
  let r2 := if (r1.lookup ("final_outbound")).isSome then r1
    else r1 ++ [("final_outbound", Json.str ("proxy"))]
  if (r2.lookup ("rule_sets")).isSome then r2
    else r2 ++ [("rule_sets", defaultRuleSets)]

/-- Character-list equality test used below. -/
def charsPrefixB : List Char → List Char → Bool
  | [], _ => true
  | _ :: _, [] => false
  | a :: as, b :: bs => a = b && charsPrefixB as bs

/-- Substring test on character lists (pattern, text). -/
def charsInfixB : List Char → List Char → Bool
  | pat, [] => pat.isEmpty
  | pat, b :: rest => charsPrefixB pat (b :: rest) || charsInfixB pat rest

/-- Python's `key in text` substring test for strings. -/
def strContainsSub (text pat : String) : Bool :=
  charsInfixB pat.toList text.toList

/-- Does a JSON value equal a given Python string?  (Python `==` between a
list element and a string is true only for equal strings.) -/
def isStrEq (j : Json) (k : String) : Bool :=
  match j with
  | .str s => s = k
  | _ => false

/-- The on-disk state of `advanced.json` as `load_routing_config`
observes it. -/
inductive FileState where
  | absent          -- `self.advanced_config_file.exists()` is false
  | vanished        -- exists, but `open` raises FileNotFoundError (caught)
  | unreadable      -- `open` raises another OSError (PermissionError, …)
  | malformed       -- `json.load` raises json.JSONDecodeError (caught)
  | content (j : Json)  -- `json.load` succeeds with this value

/-- The three top-level routing keys, in default-config order. -/
def routingKeys : List String := ["enabled_rules", "final_outbound", "rule_sets"]

/-- `load_routing_config` (routing_config.py:23-62).  Only
`FileNotFoundError` and `json.JSONDecodeError` are caught; any other
exception of the `try` body propagates to the caller: an unreadable file
raises `OSError`, `config.get` on a non-dict document raises
`AttributeError`, and the merge loop on a non-dict `routing` value raises
`TypeError` (except for the degenerate string/list cases where Python's
`in` is a substring/membership test and nothing is assigned). -/
def load_routing_config : FileState → Except PyErr Json
  | .absent => .ok (.obj default_routing_fields)
  | .vanished => .ok (.obj default_routing_fields)
  | .unreadable => .error .osError
  | .malformed => .ok (.obj default_routing_fields)
  | .content j =>
    match j with
    | .obj fields =>
        match (fields.lookup ("routing")).getD (.obj []) with
        | .obj rfields => .ok (.obj (fillDefaults rfields))
        | .str s =>
            if routingKeys.all (fun k => strContainsSub s k)
            then .ok (.str s) else .error .typeError
        | .arr items =>
            if routingKeys.all (fun k => items.any (fun it => isStrEq it k))
            then .ok (.arr items) else .error .typeError
        | _ => .error .typeError
    | _ => .error .attributeError

/-! ## Concrete configurations used as witnesses and counterexamples -/

/-- A one-rule "China direct" style rule. -/
def ruleCn : Rule := ⟨[("domain_suffix", MVal.strs [".cn"])], some ("direct")⟩

/-- A one-rule proxy rule. -/
def ruleCom : Rule := ⟨[("domain_suffix", MVal.strs [".com"])], some ("proxy")⟩

/-- Rule set with priority 10. -/
def rsLow : RuleSet := ⟨some ("low"), some true, some 10, [ruleCn]⟩

/-- Rule set with priority 20. -/
def rsHigh : RuleSet := ⟨some ("high"), some true, some 20, [ruleCom]⟩

/-- Two enabled rule sets with distinct priorities; `enabled_rules` lists
the higher-priority-number set first. -/
def cfgW1 : RoutingConfig := ⟨["hi", "lo"], some ("proxy"), [("lo", rsLow), ("hi", rsHigh)]⟩

/-- Rule matching `a.com`. -/
def ruleA : Rule := ⟨[("domain", MVal.strs ["a.com"])], some ("direct")⟩

/-- Rule matching `b.com`. -/
def ruleB : Rule := ⟨[("domain", MVal.strs ["b.com"])], some ("block")⟩

/-- Rule set `a`, priority 10. -/
def rsA : RuleSet := ⟨some ("A"), some true, some 10, [ruleA]⟩

/-- Rule set `b`, same priority 10. -/
def rsB : RuleSet := ⟨some ("B"), some true, some 10, [ruleB]⟩

/-- Equal priorities; the `rule_sets` mapping lists `a` before `b`, but
`enabled_rules` lists `b` before `a`. -/
def cfg3 : RoutingConfig := ⟨["b", "a"], some ("proxy"), [("a", rsA), ("b", rsB)]⟩

/-- A rule with zero matcher kinds: only an `outbound` key. -/
def ruleNoMatcher : Rule := ⟨[], some ("direct")⟩

/-- An enabled rule set holding only the matcher-less rule. -/
def rsBare : RuleSet := ⟨some ("bare"), some true, some 100, [ruleNoMatcher]⟩

/-- A config whose only enabled rule set contains the matcher-less rule. -/
def cfg4 : RoutingConfig := ⟨["bare"], some ("proxy"), [("bare", rsBare)]⟩

/-- `enabled_rules` references the id "ghost" which is not a key of
`rule_sets`. -/
def cfg5 : RoutingConfig := ⟨["ghost", "lo"], some ("proxy"), [("lo", rsLow)]⟩

/-- A config with an empty `enabled_rules` list but a real final outbound
and a stored rule set. -/
def cfg6 : RoutingConfig := ⟨[], some ("direct"), [("lo", rsLow)]⟩

/-- A remote node with a server and port. -/
def nodeW : NodeConfig := ⟨some ("example.com"), none, some 443, none⟩

/-- A probe environment where ping returns `None` and the geolocation
request raises. -/
def envW : ProbeEnv := ⟨.failed, .exn⟩

/-- An advanced.json whose routing section only sets `final_outbound`. -/
def fsW : FileState :=
  .content (.obj [("routing", .obj [("final_outbound", .str ("direct"))])])

/-- One refresh event: node key "k" probed as China / 50 ms at time 10. -/
def eventsW : List (String × String × LatencyVal × ℚ) :=
  [("k", "中国", .num 50, 10)]

/-- A pre-refresh cache with a stale entry for "k" observed at time 5. -/
def cacheW : List (String × CacheEntry) :=
  [("k", ⟨some ("未知"), some (.strv ("待测试")), some 5⟩)]

/-! ## Helper lemmas -/

theorem flatMap_split_one {α β : Type _} (f : α → List β) :
    ∀ (l : List α) (j : Nat) (B : α), l[j]? = some B →
      ∃ pre post, l.flatMap f = pre ++ f B ++ post := by
  intro l
  induction l with
  | nil => intro j B h; simp at h
  | cons a tl ih =>
    intro j B h
    cases j with
    | zero =>
      simp only [List.getElem?_cons_zero, Option.some.injEq] at h
      exact ⟨[], tl.flatMap f, by simp [h]⟩
    | succ j' =>
      simp only [List.getElem?_cons_succ] at h
      obtain ⟨pre, post, hsplit⟩ := ih j' B h
      exact ⟨f a ++ pre, post, by simp [hsplit]⟩

theorem flatMap_split_two {α β : Type _} (f : α → List β) :
    ∀ (l : List α) (i j : Nat) (A B : α), i < j → l[i]? = some A → l[j]? = some B →
      ∃ pre mid post, l.flatMap f = pre ++ f A ++ mid ++ f B ++ post := by
  intro l
  induction l with
  | nil => intro i j A B _ hA _; simp at hA
  | cons a tl ih =>
    intro i j A B hij hA hB
    cases i with
    | zero =>
      simp only [List.getElem?_cons_zero, Option.some.injEq] at hA
      cases j with
      | zero => omega
      | succ j' =>
        simp only [List.getElem?_cons_succ] at hB
        obtain ⟨pre, post, hsplit⟩ := flatMap_split_one f tl j' B hB
        exact ⟨[], pre, post, by simp [hA, hsplit]⟩
    | succ i' =>
      cases j with
      | zero => omega
      | succ j' =>
        simp only [List.getElem?_cons_succ] at hA hB
        obtain ⟨pre, mid, post, hsplit⟩ := ih i' j' A B (by omega) hA hB
        exact ⟨f a ++ pre, mid, post, by simp [hsplit]⟩

theorem filter_orderedInsert_eq (p : Int) (a : Int × String × RuleSet) (ha : a.1 = p) :
    ∀ l : List (Int × String × RuleSet),
      (List.orderedInsert rsLE a l).filter (fun x => x.1 == p) =
        a :: l.filter (fun x => x.1 == p) := by
  intro l
  induction l with
  | nil => simp [List.orderedInsert, ha]
  | cons b tl ih =>
    rw [List.orderedInsert]
    split_ifs with h
    · simp [ha]
    · have hb : (b.1 == p) = false := by
        have hlt : b.1 < a.1 := lt_of_not_le h
        simp only [beq_eq_false_iff_ne, ne_eq]
        omega
      simp only [List.filter_cons, hb, ih]
      simp [hb]

theorem filter_orderedInsert_ne (p : Int) (a : Int × String × RuleSet) (ha : a.1 ≠ p) :
    ∀ l : List (Int × String × RuleSet),
      (List.orderedInsert rsLE a l).filter (fun x => x.1 == p) =
        l.filter (fun x => x.1 == p) := by
  intro l
  have ha' : (a.1 == p) = false := by simpa using ha
  induction l with
  | nil => simp [List.orderedInsert, ha']
  | cons b tl ih =>
    rw [List.orderedInsert]
    split_ifs with h
    · simp [ha']
    · simp only [List.filter_cons, ih]

theorem filter_insertionSort (p : Int) :
    ∀ l : List (Int × String × RuleSet),
      (l.insertionSort rsLE).filter (fun x => x.1 == p) = l.filter (fun x => x.1 == p) := by
  intro l
  induction l with
  | nil => rfl
  | cons b tl ih =>
    rw [List.insertionSort]
    by_cases hb : b.1 = p
    · rw [filter_orderedInsert_eq p b hb, ih]
      simp [hb]
    · rw [filter_orderedInsert_ne p b hb, ih]
      have hb' : (b.1 == p) = false := by simpa using hb
      simp [hb']

theorem filterMap_filter_of_none {α β : Type _} (f : α → Option β) (q : α → Bool)
    (h : ∀ a, q a = false → f a = none) :
    ∀ l : List α, (l.filter q).filterMap f = l.filterMap f := by
  intro l
  induction l with
  | nil => rfl
  | cons a tl ih =>
    by_cases hq : q a
    · simp [List.filter_cons, hq, List.filterMap_cons, ih]
    · have : q a = false := by simpa using hq
      simp [List.filter_cons, this, List.filterMap_cons, h a this, ih]

theorem mem_filteredSets (cfg : RoutingConfig) (p : Int) (id : String) (rs : RuleSet) :
    (p, id, rs) ∈ filteredSets cfg ↔
      id ∈ cfg.enabled_rules ∧ cfg.rule_sets.lookup id = some rs ∧
        rs.enabled.getD true = true ∧ p = rs.priority.getD 100 := by
  unfold filteredSets
  rw [List.mem_filterMap]
  constructor
  · rintro ⟨name, hname, hf⟩
    cases hlook : cfg.rule_sets.lookup name with
    | none => rw [hlook] at hf; simp at hf
    | some rs' =>
      rw [hlook] at hf
      change (if rs'.enabled.getD true = true then
        some (rs'.priority.getD 100, name, rs') else none) = some (p, id, rs) at hf
      by_cases hen : rs'.enabled.getD true
      · rw [if_pos hen, Option.some.injEq] at hf
        have h1 : rs'.priority.getD 100 = p := congrArg Prod.fst hf
        have h2 : name = id := congrArg (fun x => x.2.1) hf
        have h3 : rs' = rs := congrArg (fun x => x.2.2) hf
        subst h2; subst h3
        exact ⟨hname, hlook, hen, h1.symm⟩
      · rw [if_neg hen] at hf; simp at hf
  · rintro ⟨hid, hlook, hen, hp⟩
    exact ⟨id, hid, by rw [hlook]; simp [hen, hp]⟩

theorem lookup_setEntry_self (k : String) (e : CacheEntry) :
    ∀ cache : List (String × CacheEntry), (setEntry cache k e).lookup k = some e := by
  intro cache
  induction cache with
  | nil => simp [setEntry, List.lookup]
  | cons he tl ih =>
    obtain ⟨k', e'⟩ := he
    by_cases h : k' = k
    · simp [setEntry, h, List.lookup]
    · have : (k == k') = false := by simp [Ne.symm h]
      simp [setEntry, h, List.lookup_cons, this, ih]

theorem lookup_setEntry_ne (k k' : String) (e : CacheEntry) (hne : k' ≠ k) :
    ∀ cache : List (String × CacheEntry), (setEntry cache k e).lookup k' = cache.lookup k' := by
  intro cache
  have hbe : (k' == k) = false := by simp [hne]
  induction cache with
  | nil => simp [setEntry, List.lookup, hbe]
  | cons he tl ih =>
    obtain ⟨k₀, e₀⟩ := he
    by_cases h : k₀ = k
    · subst h
      simp [setEntry, List.lookup_cons, show (k' == k₀) = false by simp [hne]]
    · simp [setEntry, h, List.lookup_cons, ih]

theorem getEntry_refresh_of_not_mem (key : String) :
    ∀ (events : List (String × String × LatencyVal × ℚ)) (cache : List (String × CacheEntry)),
      key ∉ events.map (fun e => e.1) →
        getEntry (refresh_pass events cache) key = getEntry cache key := by
  intro events
  induction events with
  | nil => intro cache _; rfl
  | cons ev rest ih =>
    obtain ⟨k, c, l, t⟩ := ev
    intro cache hmem
    simp only [List.map_cons, List.mem_cons] at hmem
    push_neg at hmem
    obtain ⟨hk, hrest⟩ := hmem
    rw [refresh_pass, ih _ (by simpa using hrest)]
    unfold getEntry
    rw [lookup_setEntry_ne k key _ hk]

theorem refresh_timestamp_of_mem (key : String) :
    ∀ (events : List (String × String × LatencyVal × ℚ)) (cache : List (String × CacheEntry)),
      key ∈ events.map (fun e => e.1) →
        ∃ t, t ∈ events.map (fun e => e.2.2.2) ∧
          (getEntry (refresh_pass events cache) key).timestamp = some t := by
  intro events
  induction events with
  | nil => intro cache h; simp at h
  | cons ev rest ih =>
    obtain ⟨k, c, l, τ⟩ := ev
    intro cache hmem
    by_cases hk : key ∈ rest.map (fun e => e.1)
    · obtain ⟨t, ht, hts⟩ := ih _ hk
      exact ⟨t, by simp [ht], by rw [refresh_pass]; exact hts⟩
    · have hkey : key = k := by
        simp only [List.map_cons, List.mem_cons] at hmem
        tauto
      subst hkey
      refine ⟨τ, by simp, ?_⟩
      rw [refresh_pass, getEntry_refresh_of_not_mem key rest _ hk]
      unfold getEntry
      rw [lookup_setEntry_self]
      rfl

theorem lookup_append_some {l1 l2 : List (String × Json)} {k : String} {v : Json}
    (h : l1.lookup k = some v) : (l1 ++ l2).lookup k = some v := by
  induction l1 with
  | nil => simp [List.lookup] at h
  | cons a tl ih =>
    obtain ⟨k₀, v₀⟩ := a
    rw [List.lookup_cons] at h
    cases hbe : (k == k₀) with
    | true => rw [hbe] at h; simpa [List.lookup_cons, hbe] using h
    | false => rw [hbe] at h; simpa [List.lookup_cons, hbe] using ih h

theorem lookup_append_none {l1 l2 : List (String × Json)} {k : String}
    (h : l1.lookup k = none) : (l1 ++ l2).lookup k = l2.lookup k := by
  induction l1 with
  | nil => simp
  | cons a tl ih =>
    obtain ⟨k₀, v₀⟩ := a
    rw [List.lookup_cons] at h
    cases hbe : (k == k₀) with
    | true => rw [hbe] at h; simp at h
    | false => rw [hbe] at h; simpa [List.lookup_cons, hbe] using ih h

theorem lookup_append_isSome_left {l1 l2 : List (String × Json)} {k : String}
    (h : (l1.lookup k).isSome = true) : ((l1 ++ l2).lookup k).isSome = true := by
  obtain ⟨v, hv⟩ := Option.isSome_iff_exists.mp h
  rw [lookup_append_some hv]
  rfl

theorem lookup_snoc_self (l : List (String × Json)) (k : String) (v : Json) :
    ((l ++ [(k, v)]).lookup k).isSome = true := by
  cases h : l.lookup k with
  | some w => rw [lookup_append_some h]; rfl
  | none => rw [lookup_append_none h]; simp [List.lookup]

theorem fillDefaults_keys (r : List (String × Json)) :
    ∀ k ∈ routingKeys, ((fillDefaults r).lookup k).isSome = true := by
  intro k hk
  simp only [fillDefaults]
  have her : ∀ l : List (String × Json),
      ((if (l.lookup ("enabled_rules")).isSome then l
        else l ++ [("enabled_rules", defaultEnabledRules)]).lookup ("enabled_rules")).isSome
        = true := by
    intro l
    split_ifs with h
    · exact h
    · exact lookup_snoc_self l _ _
  have hfo : ∀ l : List (String × Json),
      ((if (l.lookup ("final_outbound")).isSome then l
        else l ++ [("final_outbound", Json.str ("proxy"))]).lookup ("final_outbound")).isSome
        = true := by
    intro l
    split_ifs with h
    · exact h
    · exact lookup_snoc_self l _ _
  have hmono : ∀ (l : List (String × Json)) (k' : String) (v : Json) (key : String),
      (l.lookup key).isSome = true →
        ((if (l.lookup k').isSome then l else l ++ [(k', v)]).lookup key).isSome = true := by
    intro l k' v key h
    split_ifs with h'
    · exact h
    · exact lookup_append_isSome_left h
  fin_cases hk
  · exact hmono _ _ _ _ (hmono _ _ _ _ (her r))
  · exact hmono _ _ _ _ (hfo _)
  · split_ifs <;> first | assumption | exact lookup_snoc_self _ _ _

/-! ## Claims -/

/-- Claim C1: in the compiled artifact, all rules contributed by an
enabled rule set with a smaller priority number precede all rules of an
enabled rule set with a larger priority number, and each set's rules
appear as one contiguous block in their original within-set order
(`ruleBlock` is an order-preserving `map`; the flattening never reorders
inside a block). -/
theorem c1_priority_ordering (cfg : RoutingConfig) (i j : Nat) (A B : Int × String × RuleSet)
    (hA : (sortedSets cfg)[i]? = some A) (hB : (sortedSets cfg)[j]? = some B)
    (hp : A.1 < B.1) :
    i < j ∧ ∃ pre mid post,
      generatedRules cfg = pre ++ ruleBlock A ++ mid ++ ruleBlock B ++ post := by
  have hsorted : (sortedSets cfg).Sorted rsLE := List.sorted_insertionSort rsLE (filteredSets cfg)
  obtain ⟨hi, hAe⟩ := List.getElem?_eq_some_iff.mp hA
  obtain ⟨hj, hBe⟩ := List.getElem?_eq_some_iff.mp hB
  have hij : i < j := by
    by_contra hc
    push_neg at hc
    have hrel := hsorted.rel_get_of_le (a := ⟨j, hj⟩) (b := ⟨i, hi⟩) (Fin.mk_le_mk.mpr hc)
    rw [List.get_eq_getElem, List.get_eq_getElem] at hrel
    simp only [hAe, hBe] at hrel
    have : B.1 ≤ A.1 := hrel
    omega
  exact ⟨hij, flatMap_split_two ruleBlock (sortedSets cfg) i j A B hij hA hB⟩

/-- Witness for C1 at a concrete config: priority-10 set `lo` at index 0
precedes priority-20 set `hi` at index 1, although `enabled_rules` lists
`hi` first. -/
theorem c1_priority_ordering_witness :
    (0 : Nat) < 1 ∧ ∃ pre mid post,
      generatedRules cfgW1 = pre ++ ruleBlock (10, ("lo"), rsLow) ++ mid ++
        ruleBlock (20, ("hi"), rsHigh) ++ post :=
  c1_priority_ordering cfgW1 0 1 (10, ("lo"), rsLow) (20, ("hi"), rsHigh)
    (by decide) (by decide) (by decide)

/-- Claim C2: a rule set participates in the compiled output iff its id
is in `enabled_rules` AND its own `enabled` flag (default true) is set;
if either gate fails, no entry of the sorted participation list carries
its id, so it contributes zero rules to the flattening. -/
theorem c2_enablement_gates (cfg : RoutingConfig) (id : String) (rs : RuleSet)
    (hlook : cfg.rule_sets.lookup id = some rs) :
    ((∃ p, (p, id, rs) ∈ sortedSets cfg) ↔
      (id ∈ cfg.enabled_rules ∧ rs.enabled.getD true = true)) ∧
    (¬(id ∈ cfg.enabled_rules ∧ rs.enabled.getD true = true) →
      ∀ x ∈ sortedSets cfg, x.2.1 ≠ id) := by
  have hmem : ∀ x, x ∈ sortedSets cfg ↔ x ∈ filteredSets cfg := fun x =>
    (List.perm_insertionSort rsLE (filteredSets cfg)).mem_iff
  constructor
  · constructor
    · rintro ⟨p, hp⟩
      rw [hmem] at hp
      obtain ⟨hid, _, hen, _⟩ := (mem_filteredSets cfg p id rs).mp hp
      exact ⟨hid, hen⟩
    · rintro ⟨hid, hen⟩
      exact ⟨rs.priority.getD 100,
        (hmem _).mpr ((mem_filteredSets cfg _ id rs).mpr ⟨hid, hlook, hen, rfl⟩)⟩
  · intro hng x hx hxid
    apply hng
    rw [hmem] at hx
    obtain ⟨x1, x2, x3⟩ := x
    simp only at hxid
    subst hxid
    obtain ⟨hid, hlk, hen, _⟩ := (mem_filteredSets cfg x1 x2 x3).mp hx
    rw [hlook] at hlk
    obtain rfl : rs = x3 := Option.some.injEq .. ▸ hlk
    exact ⟨hid, hen⟩

/-- Witness for C2 at a concrete config: the set `lo` is both referenced
and enabled, and indeed participates. -/
theorem c2_enablement_gates_witness :
    ((∃ p, (p, ("lo"), rsLow) ∈ sortedSets cfgW1) ↔
      (("lo") ∈ cfgW1.enabled_rules ∧ rsLow.enabled.getD true = true)) ∧
    (¬((("lo") ∈ cfgW1.enabled_rules ∧ rsLow.enabled.getD true = true)) →
      ∀ x ∈ sortedSets cfgW1, x.2.1 ≠ ("lo")) :=
  c2_enablement_gates cfgW1 ("lo") rsLow (by decide)

/-- Claim C3 counterexample: in `cfg3` the `rule_sets` mapping lists `a`
before `b` and both sets have equal priority, yet the compiled artifact
puts `b`'s rule first, because the stable sort preserves the order of
the `enabled_rules` list (`["b", "a"]`), not the order of the
`rule_sets` mapping.  This refutes the claim that equal-priority sets
appear in their `rule_sets`-mapping order. -/
theorem c3_counterexample :
    cfg3.rule_sets.map Prod.fst = [("a"), ("b")] ∧
    rsA.priority.getD 100 = rsB.priority.getD 100 ∧
    generatedRules cfg3 =
      [⟨[(("domain"), MVal.strs [("b.com")])], ("block")⟩,
       ⟨[(("domain"), MVal.strs [("a.com")])], ("direct")⟩] := by
  decide

/-- Claim C3 as amended: for equal-priority rule sets the compiled
relative order is their relative order in the `enabled_rules` list
(`filteredSets` enumerates `enabled_rules` in order); repeated compiles
of the same store state agree, since the compiler is a pure function of
the loaded config. -/
theorem c3_tie_order_stable (cfg : RoutingConfig) (p : Int) :
    (sortedSets cfg).filter (fun x => x.1 == p) =
      (filteredSets cfg).filter (fun x => x.1 == p) :=
  filter_insertionSort p (filteredSets cfg)

/-- Claim C4 counterexample: `cfg4`'s only enabled rule set contains a
rule with zero matcher kinds, and the compiler happily produces an
artifact containing that bare rule — it has no error path and never
rejects with `InvalidRule`. -/
theorem c4_counterexample :
    ruleNoMatcher.matchers = [] ∧
    generate_route_config cfg4 = RouteConfig.mk true ("proxy") [⟨[], ("direct")⟩] := by
  decide

/-- Claim C4 as amended: the compiler performs no rule validation; every
rule of every participating rule set — including a rule with zero matcher
kinds — is copied into the artifact verbatim, with `outbound` defaulted
to "proxy" when absent. -/
theorem c4_no_rule_validation (cfg : RoutingConfig) (x : Int × String × RuleSet)
    (hx : x ∈ sortedSets cfg) (r : Rule) (hr : r ∈ x.2.2.rules) :
    compileRule r ∈ generatedRules cfg ∧
    (compileRule r).matchers = r.matchers ∧
    (compileRule r).outbound = r.outbound.getD ("proxy") := by
  refine ⟨?_, rfl, rfl⟩
  unfold generatedRules
  rw [List.mem_flatMap]
  exact ⟨x, hx, List.mem_map_of_mem compileRule hr⟩

/-- Witness for the amended C4: the matcher-less rule of `cfg4` is
emitted into the artifact. -/
theorem c4_no_rule_validation_witness :
    compileRule ruleNoMatcher ∈ generatedRules cfg4 ∧
    (compileRule ruleNoMatcher).matchers = ruleNoMatcher.matchers ∧
    (compileRule ruleNoMatcher).outbound = ruleNoMatcher.outbound.getD ("proxy") :=
  c4_no_rule_validation cfg4 (100, ("bare"), rsBare) (by decide) ruleNoMatcher (by decide)

/-- Claim C5 counterexample: `cfg5.enabled_rules` references the unknown
id "ghost"; the compiler reports no error — it silently skips the id and
returns the artifact built from the remaining known set. -/
theorem c5_counterexample :
    cfg5.rule_sets.lookup ("ghost") = none ∧
    ("ghost") ∈ cfg5.enabled_rules ∧
    generate_route_config cfg5 =
      RouteConfig.mk true ("proxy")
        [⟨[(("domain_suffix"), MVal.strs [(".cn")])], ("direct")⟩] := by
  decide

/-- Claim C5 as amended: ids in `enabled_rules` that are not keys of
`rule_sets` are silently skipped — the participation list and the
compiled rules are unchanged when all unknown ids are removed, and no
error is ever reported (the compiler has no error path). -/
theorem c5_unknown_ids_skipped (cfg : RoutingConfig) :
    filteredSets (knownOnly cfg) = filteredSets cfg ∧
    generatedRules (knownOnly cfg) = generatedRules cfg := by
  have h1 : filteredSets (knownOnly cfg) = filteredSets cfg := by
    unfold filteredSets knownOnly
    dsimp only
    apply filterMap_filter_of_none
    intro a ha
    cases hl : cfg.rule_sets.lookup a with
    | none => simp [hl]
    | some rs => rw [hl] at ha; simp at ha
  refine ⟨h1, ?_⟩
  unfold generatedRules sortedSets
  rw [h1]

/-- Claim C6: an empty `enabled_rules` list makes the compiler return the
empty no-op artifact (the empty dict), which is a different value from
any artifact carrying an explicit final outbound and a zero-length rule
list. -/
theorem c6_empty_enabled (cfg : RoutingConfig) (h : cfg.enabled_rules = []) :
    generate_route_config cfg = RouteConfig.empty ∧
    ∀ (b : Bool) (s : String), RouteConfig.mk b s [] ≠ RouteConfig.empty := by
  refine ⟨by simp [generate_route_config, h], ?_⟩
  intro b s hcontra
  exact RouteConfig.noConfusion hcontra

/-- Witness for C6 at a concrete config with an empty enabled list. -/
theorem c6_empty_enabled_witness :
    generate_route_config cfg6 = RouteConfig.empty ∧
    ∀ (b : Bool) (s : String), RouteConfig.mk b s [] ≠ RouteConfig.empty :=
  c6_empty_enabled cfg6 rfl

/-- Claim C7: with the default 6-hour TTL, an entry observed at a
(positive, i.e. realizable) time T is Fresh (not expired) at every query
time strictly before T + TTL, Stale (expired) at every query time
strictly after T + TTL, and a never-seen key (missing timestamp) is
always Stale. -/
theorem c7_cache_ttl (T q : ℚ) (hT : 0 < T) :
    (q < T + 6 * 3600 → _is_cache_expired (some T) 6 q = false) ∧
    (T + 6 * 3600 < q → _is_cache_expired (some T) 6 q = true) ∧
    (∀ q' : ℚ, _is_cache_expired none 6 q' = true) := by
  have hT0 : T ≠ 0 := ne_of_gt hT
  have hred : _is_cache_expired (some T) 6 q =
      if T = 0 then true else decide (q - T > ((6 : Int) : ℚ) * 3600) := rfl
  refine ⟨?_, ?_, fun q' => rfl⟩
  · intro h
    rw [hred, if_neg hT0]
    simp only [decide_eq_false_iff_not, not_lt]
    push_cast
    linarith
  · intro h
    rw [hred, if_neg hT0]
    simp only [decide_eq_true_eq]
    push_cast
    linarith

/-- Witness for C7 at T = 1, q = 2. -/
theorem c7_cache_ttl_witness :
    ((2 : ℚ) < 1 + 6 * 3600 → _is_cache_expired (some 1) 6 2 = false) ∧
    ((1 : ℚ) + 6 * 3600 < 2 → _is_cache_expired (some 1) 6 2 = true) ∧
    (∀ q' : ℚ, _is_cache_expired none 6 q' = true) :=
  c7_cache_ttl 1 2 (by norm_num)

/-- Claim C8: on a node with a real server and port, the probe is a total
function of the sub-call outcomes — expected failures come back as
sentinel values, never as exceptions.  The two sub-probes are
independent: the latency component depends only on the ping outcome and
the country component only on the geolocation outcome; ping failure
yields the "timeout" sentinel, a raised ping exception the "待测试"
sentinel, and on geolocation failure the country falls back to the
static TLD table and otherwise to the unknown sentinel "未知". -/
theorem c8_probe_sentinels (node : NodeConfig) (env : ProbeEnv)
    (hs : (node.server <|> node.address).getD ("") ≠ "")
    (hp : (node.port <|> node.listen_port).getD 0 ≠ 0) :
    (∀ env' : ProbeEnv, env'.ping = env.ping →
      (test_node_speed_and_country env' node).2 = (test_node_speed_and_country env node).2) ∧
    (∀ env' : ProbeEnv, env'.geo = env.geo →
      (test_node_speed_and_country env' node).1 = (test_node_speed_and_country env node).1) ∧
    (env.ping = .failed → (test_node_speed_and_country env node).2 = .strv ("timeout")) ∧
    (env.ping = .exn → (test_node_speed_and_country env node).2 = .strv ("待测试")) ∧
    ((test_node_speed_and_country env node).1 =
      _get_server_country env ((node.server <|> node.address).getD (""))) ∧
    (env.geo = .exn → isLocalServer ((node.server <|> node.address).getD ("")) = false →
      (test_node_speed_and_country env node).1 =
        tldFallback ((node.server <|> node.address).getD (""))) ∧
    (∀ s : String, s.contains '.' = false → tldFallback s = "未知") := by
  have hcond : ¬((node.server <|> node.address).getD ("") = "" ∨
      (node.port <|> node.listen_port).getD 0 = 0) := by
    push_neg
    exact ⟨hs, hp⟩
  refine ⟨?_, ?_, ?_, ?_, ?_, ?_, ?_⟩
  · intro env' he
    simp only [test_node_speed_and_country, if_neg hcond, he]
  · intro env' he
    simp only [test_node_speed_and_country, if_neg hcond, _get_server_country,
      isLocalServer, he]
  · intro he
    simp only [test_node_speed_and_country, if_neg hcond, he]
  · intro he
    simp only [test_node_speed_and_country, if_neg hcond, he]
  · simp only [test_node_speed_and_country, if_neg hcond]
  · intro hgeo hloc
    simp only [test_node_speed_and_country, if_neg hcond, _get_server_country,
      hgeo, hloc, if_neg hs]
    simp [hloc]
  · intro s hdot
    simp [tldFallback, hdot]

/-- Witness for C8 at a remote node whose ping returns `None` and whose
geolocation request raises. -/
theorem c8_probe_sentinels_witness :
    (∀ env' : ProbeEnv, env'.ping = envW.ping →
      (test_node_speed_and_country env' nodeW).2 = (test_node_speed_and_country envW nodeW).2) ∧
    (∀ env' : ProbeEnv, env'.geo = envW.geo →
      (test_node_speed_and_country env' nodeW).1 = (test_node_speed_and_country envW nodeW).1) ∧
    (envW.ping = .failed → (test_node_speed_and_country envW nodeW).2 = .strv ("timeout")) ∧
    (envW.ping = .exn → (test_node_speed_and_country envW nodeW).2 = .strv ("待测试")) ∧
    ((test_node_speed_and_country envW nodeW).1 =
      _get_server_country envW ((nodeW.server <|> nodeW.address).getD (""))) ∧
    (envW.geo = .exn → isLocalServer ((nodeW.server <|> nodeW.address).getD ("")) = false →
      (test_node_speed_and_country envW nodeW).1 =
        tldFallback ((nodeW.server <|> nodeW.address).getD (""))) ∧
    (∀ s : String, s.contains '.' = false → tldFallback s = "未知") :=
  c8_probe_sentinels nodeW envW (by decide) (by decide)

/-- Claim C9: both refresh paths stamp the cache entry with the probe's
completion time unconditionally (success, timeout and error alike), and
after a sequential refresh pass every refreshed key's timestamp is one
of the pass's completion times, hence at least its pre-refresh value
whenever the pass ran after the old observation (the clock only moves
forward). -/
theorem c9_refresh_timestamps (events : List (String × String × LatencyVal × ℚ))
    (cache : List (String × CacheEntry)) (key : String) (t0 : ℚ)
    (_h0 : (getEntry cache key).timestamp = some t0)
    (hk : key ∈ events.map (fun e => e.1))
    (hmono : ∀ e ∈ events, t0 ≤ e.2.2.2) :
    (∀ (ex : CacheEntry) (c : String) (l : LatencyVal) (t : ℚ),
      (update_cache_entry ex c l t).timestamp = some t) ∧
    (∀ (c : String) (l : LatencyVal) (t : ℚ), (async_cache_entry c l t).timestamp = some t) ∧
    ∃ t', (getEntry (refresh_pass events cache) key).timestamp = some t' ∧ t0 ≤ t' := by
  refine ⟨fun ex c l t => rfl, fun c l t => rfl, ?_⟩
  obtain ⟨t', ht'mem, ht'⟩ := refresh_timestamp_of_mem key events cache hk
  refine ⟨t', ht', ?_⟩
  rw [List.mem_map] at ht'mem
  obtain ⟨e, he, rfl⟩ := ht'mem
  exact hmono e he

/-- Witness for C9: refreshing the single stale entry of `cacheW` at
time 10 leaves a timestamp ≥ the old value 5. -/
theorem c9_refresh_timestamps_witness :
    (∀ (ex : CacheEntry) (c : String) (l : LatencyVal) (t : ℚ),
      (update_cache_entry ex c l t).timestamp = some t) ∧
    (∀ (c : String) (l : LatencyVal) (t : ℚ), (async_cache_entry c l t).timestamp = some t) ∧
    ∃ t', (getEntry (refresh_pass eventsW cacheW) ("k")).timestamp = some t' ∧ (5 : ℚ) ≤ t' :=
  c9_refresh_timestamps eventsW cacheW ("k") 5 rfl (by simp [eventsW])
    (by intro e he; simp only [eventsW, List.mem_singleton] at he; subst he; norm_num)

/-- Claim C10 counterexample: a file that exists but cannot be opened
(e.g. a permission error: any OSError other than FileNotFoundError) is
not caught by `except (FileNotFoundError, json.JSONDecodeError)`, so
loading raises instead of returning the defaults — refuting "never
raises". -/
theorem c10_counterexample :
    load_routing_config FileState.unreadable = Except.error PyErr.osError := rfl

/-- Claim C10 as amended: when the file is absent or fails JSON parsing
the built-in default config is returned, and when the parsed document is
an object whose routing section is an object, every missing top-level
key is filled from the defaults, so the result contains all three keys
`enabled_rules`, `final_outbound`, `rule_sets`; but an unreadable file
(or a non-object document) propagates an exception. -/
theorem c10_load_defaults (st : FileState) (fields rfields : List (String × Json))
    (hst : st = .content (.obj fields))
    (hr : (fields.lookup ("routing")).getD (.obj []) = .obj rfields) :
    load_routing_config st = .ok (.obj (fillDefaults rfields)) ∧
    (∀ k ∈ routingKeys, ((fillDefaults rfields).lookup k).isSome = true) ∧
    load_routing_config .absent = .ok (.obj default_routing_fields) ∧
    load_routing_config .malformed = .ok (.obj default_routing_fields) := by
  subst hst
  refine ⟨?_, fillDefaults_keys rfields, rfl, rfl⟩
  show (match (fields.lookup ("routing")).getD (.obj []) with
    | Json.obj rfields => Except.ok (Json.obj (fillDefaults rfields))
    | Json.str s =>
        if routingKeys.all (fun k => strContainsSub s k)
        then Except.ok (Json.str s) else Except.error PyErr.typeError
    | Json.arr items =>
        if routingKeys.all (fun k => items.any (fun it => isStrEq it k))
        then Except.ok (Json.arr items) else Except.error PyErr.typeError
    | _ => Except.error PyErr.typeError) = Except.ok (Json.obj (fillDefaults rfields))
  rw [hr]

/-- Witness for the amended C10 at a routing section that only sets
`final_outbound`. -/
theorem c10_load_defaults_witness :
    load_routing_config fsW =
      .ok (.obj (fillDefaults [(("final_outbound"), Json.str ("direct"))])) ∧
    (∀ k ∈ routingKeys,
      ((fillDefaults [(("final_outbound"), Json.str ("direct"))]).lookup k).isSome = true) ∧
    load_routing_config .absent = .ok (.obj default_routing_fields) ∧
    load_routing_config .malformed = .ok (.obj default_routing_fields) :=
  c10_load_defaults fsW [(("routing"), Json.obj [(("final_outbound"), Json.str ("direct"))])]
    [(("final_outbound"), Json.str ("direct"))] rfl rfl

end Sing
